import Mathlib

/-
Verification development for the dung-beetle game physics core.

The definitions below are shallow embeddings of the JavaScript in this
repository:
  * namespace `PhysImpl` embeds the beetle/ball attachment code of
    `physics-implementation.md` (attachToBall, detachFromBall, pushBall,
    updateFriction, updateTerrainInteractions, createBallPhysics,
    updateBallSize);
  * namespace `Part007` embeds the `DungBall` class (update, damage) of
    `src/unnamed/part_007`;
  * namespace `Part000` embeds the `PhysicsWorld` class (update,
    addRigidBody, removeRigidBody) of `src/unnamed/part_000`.

Machine floats are modelled by exact rationals.  The source computes planar
speed as `Math.sqrt(vx*vx + vz*vz)` and compares it against a bound; here
the comparison is expressed without the square root (`sqrtLt`, `sqrtGt`
below are, over the reals, logically equivalent to `Real.sqrt s < t` and
`Real.sqrt s > t` for `s ≥ 0`), which keeps every definition computable.
-/

namespace Poosher

structure Vec3 where
  x : ℚ
  y : ℚ
  z : ℚ
deriving DecidableEq, Repr

def Vec3.add (a b : Vec3) : Vec3 := ⟨a.x + b.x, a.y + b.y, a.z + b.z⟩

def Vec3.smul (c : ℚ) (v : Vec3) : Vec3 := ⟨c * v.x, c * v.y, c * v.z⟩

def Vec3.zero : Vec3 := ⟨0, 0, 0⟩

/-- Squared planar speed: the source computes
`Math.sqrt(velocity.x()*velocity.x() + velocity.z()*velocity.z())`; we keep
the radicand. -/
def planarSpeedSq (v : Vec3) : ℚ := v.x * v.x + v.z * v.z

/-- The proposition `Real.sqrt s < t` for a nonnegative radicand `s`,
expressed without the square root: it holds iff `t` is nonnegative and
`s < t·t`. -/
def sqrtLt (s t : ℚ) : Prop := 0 ≤ t ∧ s < t * t

/-- The proposition `Real.sqrt s > t` for a nonnegative radicand `s`,
expressed without the square root: it holds iff `t` is negative or
`t·t < s`. -/
def sqrtGt (s t : ℚ) : Prop := t < 0 ∨ t * t < s

instance (s t : ℚ) : Decidable (sqrtLt s t) :=
  inferInstanceAs (Decidable (_ ∧ _))

instance (s t : ℚ) : Decidable (sqrtGt s t) :=
  inferInstanceAs (Decidable (_ ∨ _))

end Poosher

namespace PhysImpl

open Poosher

/-- A dynamic rigid body as used by the attachment code: its linear
velocity, the accumulated central force (`applyCentralForce` adds to it;
the force is consumed by the next solver step), and the inverse mass used
by `applyCentralImpulse` (Bullet adds `impulse × invMass` to the linear
velocity). -/
structure Body where
  velocity : Vec3
  force : Vec3
  invMass : ℚ
deriving DecidableEq, Repr

def applyCentralForce (f : Vec3) (b : Body) : Body :=
  { b with force := Vec3.add b.force f }

def applyCentralImpulse (j : Vec3) (b : Body) : Body :=
  { b with velocity := Vec3.add b.velocity (Vec3.smul b.invMass j) }

/-- The beetle-side state touched by `attachToBall` / `detachFromBall` /
`pushBall` in `physics-implementation.md`: `this.stats.topSpeed`,
`this.attachedBall`, `this.constraint`, `this.body`, together with the
physics world's constraint list (`physicsWorld.addConstraint` /
`removeConstraint`) and the attached ball's body.  Constraints are
identified by ids; `nextId` supplies a fresh id for each
`new Ammo.btPoint2PointConstraint`. -/
structure SysState where
  topSpeed : ℚ
  attachedBall : Option Nat
  constraint : Option Nat
  worldConstraints : List Nat
  nextId : Nat
  beetleBody : Body
  ballBody : Body
deriving DecidableEq, Repr

/-- `attachToBall(ball)` from `physics-implementation.md` lines 167-196:
sets `this.attachedBall = ball`, builds a point-to-point constraint and
registers it with the world.  The source performs no precondition check
and has no failure path. -/
def attachToBall (ball : Nat) (s : SysState) : SysState :=
  { s with
    attachedBall := some ball
    constraint := some s.nextId
    worldConstraints := s.nextId :: s.worldConstraints
    nextId := s.nextId + 1 }

/-- The randomized throw force of `detachFromBall`:
`(Math.random()*2 - 1, Math.random()*2 + 1, Math.random()*2 - 1)`; the
three draws are passed in as `r1 r2 r3 ∈ [0,1)`. -/
def throwForce (r1 r2 r3 : ℚ) : Vec3 :=
  ⟨r1 * 2 - 1, r2 * 2 + 1, r3 * 2 - 1⟩

/-- `detachFromBall()` from `physics-implementation.md` lines 203-218:
when a constraint exists, removes it from the world, nulls
`this.constraint` and `this.attachedBall`, and applies the randomized
throw impulse to the beetle body. -/
def detachFromBall (r1 r2 r3 : ℚ) (s : SysState) : SysState :=
  match s.constraint with
  | none => s
  | some c =>
    { s with
      worldConstraints := s.worldConstraints.erase c
      constraint := none
      attachedBall := none
      beetleBody := applyCentralImpulse (throwForce r1 r2 r3) s.beetleBody }

/-- `pushBall(direction, strength)` from `physics-implementation.md`
lines 396-421: builds the planar force, reads the attached ball's planar
speed, applies the force only when `currentSpeed < this.stats.topSpeed`,
and calls `detachFromBall()` when
`currentSpeed > this.stats.topSpeed * 1.5`. -/
def pushBall (direction : Vec3) (strength r1 r2 r3 : ℚ) (s : SysState) :
    SysState :=
  let force : Vec3 := ⟨direction.x * strength, 0, direction.z * strength⟩
  let velocity := s.ballBody.velocity
  let currentSpeedSq := planarSpeedSq velocity
  let s1 :=
    if sqrtLt currentSpeedSq s.topSpeed then
      { s with ballBody := applyCentralForce force s.ballBody }
    else s
  if sqrtGt currentSpeedSq (s.topSpeed * 1.5) then
    detachFromBall r1 r2 r3 s1
  else s1

/-- A rigid body of the ball as built by `createBallPhysics` in
`physics-implementation.md` lines 38-71. -/
structure MdBody where
  shapeRadius : ℚ
  mass : ℚ
  restitution : ℚ
  friction : ℚ
  velocity : Vec3
  angularVelocity : Vec3
deriving DecidableEq, Repr

/-- `createBallPhysics(position, size, mass)` from
`physics-implementation.md` lines 38-71: builds a sphere shape of radius
`size / 2`, sets restitution 0.4 and friction 0.8, and constructs a fresh
`btRigidBody` (a freshly constructed body has zero linear and angular
velocity; the construction info carries none). -/
def createBallPhysics (size mass : ℚ) : MdBody :=
  { shapeRadius := size / 2
    mass := mass
    restitution := 0.4
    friction := 0.8
    velocity := Vec3.zero
    angularVelocity := Vec3.zero }

/-- The ball entity owning a body, as used by `updateBallSize`. -/
structure MdBallEntity where
  meshScale : ℚ
  body : MdBody
deriving DecidableEq, Repr

/-- `updateBallSize(newSize)` from `physics-implementation.md` lines
79-93: rescales the mesh, removes the old body from the world and replaces
`this.body` by `createBallPhysics(this.position, newSize, newMass)` with
`newMass = this.calculateMass(newSize)` (`calculateMass` is not defined in
the source and is passed in here as `calcMass`).  The function body ends
with the comment `// Save current velocity and apply to new body` followed
by `// ...`: no code transfers the old body's velocity to the new one. -/
def updateBallSize (calcMass : ℚ → ℚ) (newSize : ℚ) (ball : MdBallEntity) :
    MdBallEntity :=
  { ball with
    meshScale := newSize
    body := createBallPhysics newSize (calcMass newSize) }

end PhysImpl

namespace Part007

open Poosher

/-- The `DungBall` state of `src/unnamed/part_007`: constructor fields
(`radius` — the base radius, set to 0.5; `growthRate` 0.005; `maxRadius`
3; `currentRadius`; `massScale` 2), the mesh scale, and the physics body's
sphere-shape radius, mass, velocities and friction. -/
structure DungBall where
  radius : ℚ
  growthRate : ℚ
  maxRadius : ℚ
  currentRadius : ℚ
  massScale : ℚ
  meshScale : ℚ
  shapeRadius : ℚ
  mass : ℚ
  velocity : Vec3
  angularVelocity : Vec3
  friction : ℚ
deriving DecidableEq, Repr

/-- The `DungBall` constructor together with `initPhysics`: radius 0.5,
growth rate 0.005, max radius 3, mass scale 2, body mass `massScale`,
sphere shape of radius `this.radius`, friction 0.7, body at rest. -/
def mkDungBall : DungBall :=
  { radius := 0.5
    growthRate := 0.005
    maxRadius := 3
    currentRadius := 0.5
    massScale := 2
    meshScale := 1
    shapeRadius := 0.5
    mass := 2
    velocity := Vec3.zero
    angularVelocity := Vec3.zero
    friction := 0.7 }

/-- `DungBall.update()` from `src/unnamed/part_007` lines 277-302: while
`currentRadius < maxRadius`, adds `growthRate` to `currentRadius`,
rescales the mesh by `currentRadius / radius`, calls
`shape.setRadius(currentRadius)` and resets the mass to
`massScale * (currentRadius / radius)^3` via `setMassProps`.  The
remaining statements only copy the physics position to the mesh. -/
def DungBall.update (b : DungBall) : DungBall :=
  if b.currentRadius < b.maxRadius then
    let newRadius := b.currentRadius + b.growthRate
    { b with
      currentRadius := newRadius
      meshScale := newRadius / b.radius
      shapeRadius := newRadius
      mass := b.massScale * (newRadius / b.radius) ^ 3 }
  else b

/-- `DungBall.damage(amount)` from `src/unnamed/part_007` lines 308-328:
`currentRadius = Math.max(this.radius, this.currentRadius - amount)`, then
the same mesh rescale, `shape.setRadius` and cubic mass update as in
`update`. -/
def DungBall.damage (amount : ℚ) (b : DungBall) : DungBall :=
  let newRadius := max b.radius (b.currentRadius - amount)
  { b with
    currentRadius := newRadius
    meshScale := newRadius / b.radius
    shapeRadius := newRadius
    mass := b.massScale * (newRadius / b.radius) ^ 3 }

/-- `ball.body.setLinearVelocity(v)`. -/
def DungBall.setLinearVelocity (v : Vec3) (b : DungBall) : DungBall :=
  { b with velocity := v }

/-- The operations that drive the ball from tick to tick: the per-tick
`update` (which performs the gradual growth) and `damage`. -/
inductive BallOp where
  | update : BallOp
  | damage : ℚ → BallOp
deriving DecidableEq, Repr

def applyBallOp (b : DungBall) : BallOp → DungBall
  | .update => DungBall.update b
  | .damage a => DungBall.damage a b

def applyBallOps (ops : List BallOp) (b : DungBall) : DungBall :=
  ops.foldl applyBallOp b

def applyDamages (amts : List ℚ) (b : DungBall) : DungBall :=
  amts.foldl (fun acc a => DungBall.damage a acc) b

/-- The volumetric mass law of the spec:
`mass = massScaleFactor × (radius / baseRadius)³`, read on the embedded
state (`massScale`, `currentRadius`, `radius`). -/
def massLaw (b : DungBall) : Prop :=
  b.mass = b.massScale * (b.currentRadius / b.radius) ^ 3

instance (b : DungBall) : Decidable (massLaw b) :=
  inferInstanceAs (Decidable (_ = _))

end Part007

namespace PhysImpl

open Poosher Part007

/-- The terrain classifications appearing in the source switches
(`'mud'`, `'ice'`, `'sand'`, `'snow'`, `'water'`) plus a default tag for
every other string. -/
inductive Terrain where
  | mud | ice | sand | snow | water | defaultTag
deriving DecidableEq, Repr

/-- The friction lookup of `updateFriction(terrainType)` in
`physics-implementation.md` lines 104-122: default 0.8, `'mud'` 1.5,
`'ice'` 0.2, `'sand'` 1.2; every other tag (including `'snow'` and
`'water'`, which have no case) falls through to the default. -/
def updateFriction : Terrain → ℚ
  | .mud => 1.5
  | .ice => 0.2
  | .sand => 1.2
  | _ => 0.8

/-- `updateFriction` as a state change: `this.body.setFriction(friction)`. -/
def applyFriction (t : Terrain) (b : DungBall) : DungBall :=
  { b with friction := updateFriction t }

/-- `updateTerrainInteractions(ball, terrainType)` from
`physics-implementation.md` lines 320-359: for `'water'` with
`isSmallWater`, `ball.damage(0.05)` then linear velocity scaled by 0.8;
for large water, `ball.damage(ball.size)` (the ball's size accessor is its
current radius); `'mud'`/`'sand'`/`'snow'` scale the linear velocity by
0.6 / 0.85 / 0.95. -/
def updateTerrainInteractions (isSmallWater : Bool) (t : Terrain)
    (b : DungBall) : DungBall :=
  match t with
  | .water =>
    if isSmallWater then
      let b1 := DungBall.damage 0.05 b
      DungBall.setLinearVelocity (Vec3.smul 0.8 b1.velocity) b1
    else
      DungBall.damage b.currentRadius b
  | .mud => DungBall.setLinearVelocity (Vec3.smul 0.6 b.velocity) b
  | .sand => DungBall.setLinearVelocity (Vec3.smul 0.85 b.velocity) b
  | .snow => DungBall.setLinearVelocity (Vec3.smul 0.95 b.velocity) b
  | _ => b

end PhysImpl

namespace Part000

/-- The `PhysicsWorld` state of `src/unnamed/part_000`: the `initialized`
flag, the tracked `rigidBodies` list, the bodies registered with the
native world, and a step counter abstracting the effect of
`world.stepSimulation` plus the transform copy-back. -/
structure PhysicsWorldState where
  initialized : Bool
  rigidBodies : List Nat
  worldBodies : List Nat
  stepCount : Nat
deriving DecidableEq, Repr

/-- `PhysicsWorld.update(deltaTime)` from `src/unnamed/part_000` lines
117-145: `if (!this.initialized) return;`, else steps the simulation and
copies transforms back to the tracked objects. -/
def PhysicsWorldState.update (s : PhysicsWorldState) : PhysicsWorldState :=
  if s.initialized then { s with stepCount := s.stepCount + 1 } else s

/-- `PhysicsWorld.addRigidBody(object)` from `src/unnamed/part_000` lines
152-227: `if (!this.initialized) { console.error(...); return; }`, else
registers the body with the native world and pushes a tracking entry onto
`this.rigidBodies`. -/
def PhysicsWorldState.addRigidBody (obj : Nat) (s : PhysicsWorldState) :
    PhysicsWorldState :=
  if s.initialized then
    { s with
      worldBodies := obj :: s.worldBodies
      rigidBodies := obj :: s.rigidBodies }
  else s

/-- `PhysicsWorld.removeRigidBody(object)` from `src/unnamed/part_000`
lines 233-249: `if (!this.initialized) return;`, else when the object is
tracked, removes its body from the native world and splices it out of
`this.rigidBodies`. -/
def PhysicsWorldState.removeRigidBody (obj : Nat) (s : PhysicsWorldState) :
    PhysicsWorldState :=
  if s.initialized then
    if obj ∈ s.rigidBodies then
      { s with
        worldBodies := s.worldBodies.erase obj
        rigidBodies := s.rigidBodies.erase obj }
    else s
  else s

end Part000

namespace Poosher

theorem sqrtLt_of_sq (spd t : ℚ) (hspd : 0 ≤ spd) (h : spd < t) :
    sqrtLt (spd * spd) t := by
  constructor
  · linarith
  · nlinarith

theorem not_sqrtLt_of_sq (spd t : ℚ) (h : t ≤ spd) :
    ¬ sqrtLt (spd * spd) t := by
  rintro ⟨ht, hlt⟩
  nlinarith

theorem sqrtGt_of_sq (spd t : ℚ) (h : t < spd) :
    sqrtGt (spd * spd) t := by
  rcases lt_or_le t 0 with h0 | h0
  · exact Or.inl h0
  · exact Or.inr (by nlinarith)

theorem not_sqrtGt_of_sq (spd t : ℚ) (hspd : 0 ≤ spd) (ht : 0 ≤ t)
    (h : spd ≤ t) : ¬ sqrtGt (spd * spd) t := by
  rintro (h0 | hlt)
  · linarith
  · nlinarith

end Poosher

namespace PhysImpl

open Poosher

theorem detachFromBall_ballBody (r1 r2 r3 : ℚ) (s : SysState) :
    (detachFromBall r1 r2 r3 s).ballBody = s.ballBody := by
  unfold detachFromBall
  rcases hc : s.constraint with _ | c <;> simp

theorem detachFromBall_of_constraint (r1 r2 r3 : ℚ) (s : SysState) (c : Nat)
    (hc : s.constraint = some c) :
    detachFromBall r1 r2 r3 s =
      { s with
        worldConstraints := s.worldConstraints.erase c
        constraint := none
        attachedBall := none
        beetleBody :=
          applyCentralImpulse (throwForce r1 r2 r3) s.beetleBody } := by
  unfold detachFromBall
  rw [hc]

end PhysImpl

/-- Claim C2: while ATTACHED, the per-tick detachment check in `pushBall`
transitions to DETACHED exactly when the planar speed of the ball
(horizontal components only) exceeds 1.5 times the configured topSpeed:
above the threshold the tick removes the constraint from the world and
clears both link references; below it the state stays ATTACHED. -/
theorem c2_overspeed_detach_iff (direction : Poosher.Vec3) (strength r1 r2 r3 : ℚ)
    (s : PhysImpl.SysState) (c ball : Nat) (spd : ℚ)
    (hc : s.constraint = some c) (hb : s.attachedBall = some ball)
    (htop : 0 ≤ s.topSpeed) (hspd : 0 ≤ spd)
    (hsq : spd * spd = Poosher.planarSpeedSq s.ballBody.velocity) :
    (s.topSpeed * 1.5 < spd →
      (PhysImpl.pushBall direction strength r1 r2 r3 s).constraint = none ∧
      (PhysImpl.pushBall direction strength r1 r2 r3 s).attachedBall
        = none ∧
      (PhysImpl.pushBall direction strength r1 r2 r3 s).worldConstraints
        = s.worldConstraints.erase c) ∧
    (spd < s.topSpeed * 1.5 →
      (PhysImpl.pushBall direction strength r1 r2 r3 s).constraint
        = some c ∧
      (PhysImpl.pushBall direction strength r1 r2 r3 s).attachedBall
        = some ball) := by
  constructor
  · intro hgt
    have hG : Poosher.sqrtGt (Poosher.planarSpeedSq s.ballBody.velocity)
        (s.topSpeed * 1.5) := by
      rw [← hsq]
      exact Poosher.sqrtGt_of_sq spd _ hgt
    by_cases h1 : Poosher.sqrtLt (Poosher.planarSpeedSq s.ballBody.velocity)
        s.topSpeed
    · simp [PhysImpl.pushBall, h1, hG, PhysImpl.detachFromBall, hc,
        PhysImpl.applyCentralForce]
    · simp [PhysImpl.pushBall, h1, hG, PhysImpl.detachFromBall, hc]
  · intro hlt
    have hG : ¬ Poosher.sqrtGt (Poosher.planarSpeedSq s.ballBody.velocity)
        (s.topSpeed * 1.5) := by
      rw [← hsq]
      exact Poosher.not_sqrtGt_of_sq spd _ hspd (by nlinarith)
        (le_of_lt hlt)
    by_cases h1 : Poosher.sqrtLt (Poosher.planarSpeedSq s.ballBody.velocity)
        s.topSpeed
    · simp [PhysImpl.pushBall, h1, hG, hc, hb]
    · simp [PhysImpl.pushBall, h1, hG, hc, hb]

/-- Witness for C2: with topSpeed 4 and ball planar velocity (0,0,7) the
planar speed 7 exceeds 6 = 1.5 × 4, and the tick detaches; with planar
velocity (0,0,5) the speed 5 is below 6 and the link survives. -/
theorem c2_overspeed_detach_iff_witness :
    (let s0 : PhysImpl.SysState :=
      { topSpeed := 4, attachedBall := some 1, constraint := some 0,
        worldConstraints := [0], nextId := 1,
        beetleBody :=
          { velocity := Poosher.Vec3.zero, force := Poosher.Vec3.zero,
            invMass := 1 },
        ballBody :=
          { velocity := ⟨0, 0, 7⟩, force := Poosher.Vec3.zero,
            invMass := 1 } };
      (PhysImpl.pushBall ⟨0, 0, 1⟩ 1 (1/2) (1/2) (1/2) s0).constraint
        = none ∧
      (PhysImpl.pushBall ⟨0, 0, 1⟩ 1 (1/2) (1/2) (1/2) s0).attachedBall
        = none) ∧
    (let s1 : PhysImpl.SysState :=
      { topSpeed := 4, attachedBall := some 1, constraint := some 0,
        worldConstraints := [0], nextId := 1,
        beetleBody :=
          { velocity := Poosher.Vec3.zero, force := Poosher.Vec3.zero,
            invMass := 1 },
        ballBody :=
          { velocity := ⟨0, 0, 5⟩, force := Poosher.Vec3.zero,
            invMass := 1 } };
      (PhysImpl.pushBall ⟨0, 0, 1⟩ 1 (1/2) (1/2) (1/2) s1).constraint
        = some 0 ∧
      (PhysImpl.pushBall ⟨0, 0, 1⟩ 1 (1/2) (1/2) (1/2) s1).attachedBall
        = some 1) := by
  constructor
  · have h := c2_overspeed_detach_iff ⟨0, 0, 1⟩ 1 (1/2) (1/2) (1/2)
      { topSpeed := 4, attachedBall := some 1, constraint := some 0,
        worldConstraints := [0], nextId := 1,
        beetleBody :=
          { velocity := Poosher.Vec3.zero, force := Poosher.Vec3.zero,
            invMass := 1 },
        ballBody :=
          { velocity := ⟨0, 0, 7⟩, force := Poosher.Vec3.zero,
            invMass := 1 } }
      0 1 7 rfl rfl (by norm_num) (by norm_num) (by norm_num [Poosher.planarSpeedSq])
    exact ⟨(h.1 (by norm_num)).1, (h.1 (by norm_num)).2.1⟩
  · have h := c2_overspeed_detach_iff ⟨0, 0, 1⟩ 1 (1/2) (1/2) (1/2)
      { topSpeed := 4, attachedBall := some 1, constraint := some 0,
        worldConstraints := [0], nextId := 1,
        beetleBody :=
          { velocity := Poosher.Vec3.zero, force := Poosher.Vec3.zero,
            invMass := 1 },
        ballBody :=
          { velocity := ⟨0, 0, 5⟩, force := Poosher.Vec3.zero,
            invMass := 1 } }
      0 1 5 rfl rfl (by norm_num) (by norm_num) (by norm_num [Poosher.planarSpeedSq])
    exact h.2 (by norm_num)

/-- Claim C3: a `pushBall` call made while the planar speed of the
attached ball is at least the configured topSpeed applies no force: the
whole ball body (velocity, force accumulator and mass data) is unchanged
by the call. -/
theorem c3_force_gated (direction : Poosher.Vec3) (strength r1 r2 r3 : ℚ)
    (s : PhysImpl.SysState) (spd : ℚ) (hspd : 0 ≤ spd)
    (hsq : spd * spd = Poosher.planarSpeedSq s.ballBody.velocity)
    (hge : s.topSpeed ≤ spd) :
    (PhysImpl.pushBall direction strength r1 r2 r3 s).ballBody
      = s.ballBody := by
  have h1 : ¬ Poosher.sqrtLt (Poosher.planarSpeedSq s.ballBody.velocity)
      s.topSpeed := by
    rw [← hsq]
    exact Poosher.not_sqrtLt_of_sq spd _ hge
  by_cases hG : Poosher.sqrtGt (Poosher.planarSpeedSq s.ballBody.velocity)
      (s.topSpeed * 1.5)
  · simp [PhysImpl.pushBall, h1, hG, PhysImpl.detachFromBall_ballBody]
  · simp [PhysImpl.pushBall, h1, hG]

/-- Witness for C3: with topSpeed 4 and ball planar velocity (0,0,4) the
planar speed equals the topSpeed and the ball body is untouched. -/
theorem c3_force_gated_witness :
    (let s0 : PhysImpl.SysState :=
      { topSpeed := 4, attachedBall := some 1, constraint := some 0,
        worldConstraints := [0], nextId := 1,
        beetleBody :=
          { velocity := Poosher.Vec3.zero, force := Poosher.Vec3.zero,
            invMass := 1 },
        ballBody :=
          { velocity := ⟨0, 0, 4⟩, force := Poosher.Vec3.zero,
            invMass := 1 } };
      (PhysImpl.pushBall ⟨0, 0, 1⟩ 1 (1/2) (1/2) (1/2) s0).ballBody
        = s0.ballBody) := by
  exact c3_force_gated ⟨0, 0, 1⟩ 1 (1/2) (1/2) (1/2)
    { topSpeed := 4, attachedBall := some 1, constraint := some 0,
      worldConstraints := [0], nextId := 1,
      beetleBody :=
        { velocity := Poosher.Vec3.zero, force := Poosher.Vec3.zero,
          invMass := 1 },
      ballBody :=
        { velocity := ⟨0, 0, 4⟩, force := Poosher.Vec3.zero,
          invMass := 1 } }
    4 (by norm_num) (by norm_num [Poosher.planarSpeedSq]) (by norm_num)

/-- Counterexample to claim C1: `attachToBall` called while the beetle
already holds a link does not fail and does not leave the state
unchanged — with an existing link to ball 1 through constraint 0, the
call overwrites the attachment reference and the constraint. -/
theorem c1_attach_counterexample :
    (let s0 : PhysImpl.SysState :=
      { topSpeed := 4, attachedBall := some 1, constraint := some 0,
        worldConstraints := [0], nextId := 1,
        beetleBody :=
          { velocity := Poosher.Vec3.zero, force := Poosher.Vec3.zero,
            invMass := 1 },
        ballBody :=
          { velocity := Poosher.Vec3.zero, force := Poosher.Vec3.zero,
            invMass := 1 } };
      (PhysImpl.attachToBall 2 s0).attachedBall ≠ s0.attachedBall ∧
      (PhysImpl.attachToBall 2 s0).constraint ≠ s0.constraint) := by
  constructor <;> simp [PhysImpl.attachToBall]

/-- Claim C1 as amended: `attachToBall` performs no precondition check
and cannot fail; invoked while the beetle already has a link, it
overwrites the attachment reference and the constraint reference with a
fresh constraint and registers the new constraint with the world without
removing the existing one, so afterwards both the old and the new
constraint are registered and reference the same beetle. -/
theorem c1_attach_overwrites (s : PhysImpl.SysState) (ball c : Nat)
    (hc : s.constraint = some c) (hmem : c ∈ s.worldConstraints)
    (hfresh : c < s.nextId) :
    (PhysImpl.attachToBall ball s).attachedBall = some ball ∧
    (PhysImpl.attachToBall ball s).constraint = some s.nextId ∧
    (PhysImpl.attachToBall ball s).constraint ≠ s.constraint ∧
    c ∈ (PhysImpl.attachToBall ball s).worldConstraints ∧
    s.nextId ∈ (PhysImpl.attachToBall ball s).worldConstraints ∧
    (PhysImpl.attachToBall ball s).worldConstraints.length
      = s.worldConstraints.length + 1 := by
  refine ⟨rfl, rfl, ?_, ?_, ?_, ?_⟩
  · rw [hc]
    simp [PhysImpl.attachToBall]
    omega
  · simp [PhysImpl.attachToBall]
    exact Or.inr hmem
  · simp [PhysImpl.attachToBall]
  · simp [PhysImpl.attachToBall]

/-- Witness for C1 (amended): the state attached to ball 1 through
constraint 0; attaching to ball 2 overwrites the references and leaves
both constraints registered. -/
theorem c1_attach_overwrites_witness :
    (let s0 : PhysImpl.SysState :=
      { topSpeed := 4, attachedBall := some 1, constraint := some 0,
        worldConstraints := [0], nextId := 1,
        beetleBody :=
          { velocity := Poosher.Vec3.zero, force := Poosher.Vec3.zero,
            invMass := 1 },
        ballBody :=
          { velocity := Poosher.Vec3.zero, force := Poosher.Vec3.zero,
            invMass := 1 } };
      (PhysImpl.attachToBall 2 s0).attachedBall = some 2 ∧
      (PhysImpl.attachToBall 2 s0).constraint = some 1 ∧
      0 ∈ (PhysImpl.attachToBall 2 s0).worldConstraints ∧
      1 ∈ (PhysImpl.attachToBall 2 s0).worldConstraints) := by
  have h := c1_attach_overwrites
    { topSpeed := 4, attachedBall := some 1, constraint := some 0,
      worldConstraints := [0], nextId := 1,
      beetleBody :=
        { velocity := Poosher.Vec3.zero, force := Poosher.Vec3.zero,
          invMass := 1 },
      ballBody :=
        { velocity := Poosher.Vec3.zero, force := Poosher.Vec3.zero,
          invMass := 1 } }
    2 0 rfl (by decide) (by decide)
  exact ⟨h.1, h.2.1, h.2.2.2.1, h.2.2.2.2.1⟩

/-- Counterexample to claim C7: an explicit, caller-invoked
`detachFromBall` does not leave the beetle velocity unchanged — on an
attached state with the beetle at rest it applies the randomized throw
impulse (here with all three random draws equal to 1/2). -/
theorem c7_detach_counterexample :
    (let s0 : PhysImpl.SysState :=
      { topSpeed := 4, attachedBall := some 1, constraint := some 0,
        worldConstraints := [0], nextId := 1,
        beetleBody :=
          { velocity := Poosher.Vec3.zero, force := Poosher.Vec3.zero,
            invMass := 1 },
        ballBody :=
          { velocity := Poosher.Vec3.zero, force := Poosher.Vec3.zero,
            invMass := 1 } };
      (PhysImpl.detachFromBall (1/2) (1/2) (1/2) s0).beetleBody.velocity
        ≠ s0.beetleBody.velocity) := by
  norm_num [PhysImpl.detachFromBall, PhysImpl.applyCentralImpulse,
    PhysImpl.throwForce, Poosher.Vec3.add, Poosher.Vec3.smul,
    Poosher.Vec3.zero]

/-- Claim C7 as amended: a caller-invoked `detachFromBall` on an attached
state removes the constraint from the world and clears both link
references, and it also applies the randomized throw impulse — the same
code path as the overspeed detachment — so the beetle velocity changes:
it gains `invMass` times the throw force, whose vertical component
`2·r2 + 1` is at least 1 for any random draw `r2 ≥ 0`. -/
theorem c7_detach_applies_impulse (r1 r2 r3 : ℚ) (s : PhysImpl.SysState)
    (c : Nat) (hc : s.constraint = some c) :
    (PhysImpl.detachFromBall r1 r2 r3 s).constraint = none ∧
    (PhysImpl.detachFromBall r1 r2 r3 s).attachedBall = none ∧
    (PhysImpl.detachFromBall r1 r2 r3 s).worldConstraints
      = s.worldConstraints.erase c ∧
    (PhysImpl.detachFromBall r1 r2 r3 s).beetleBody.velocity
      = Poosher.Vec3.add s.beetleBody.velocity
          (Poosher.Vec3.smul s.beetleBody.invMass
            (PhysImpl.throwForce r1 r2 r3)) ∧
    (0 ≤ r2 → 0 < s.beetleBody.invMass →
      s.beetleBody.velocity.y
        < (PhysImpl.detachFromBall r1 r2 r3 s).beetleBody.velocity.y) := by
  rw [PhysImpl.detachFromBall_of_constraint r1 r2 r3 s c hc]
  refine ⟨rfl, rfl, rfl, rfl, ?_⟩
  intro hr2 hmass
  simp [PhysImpl.applyCentralImpulse, PhysImpl.throwForce,
    Poosher.Vec3.add, Poosher.Vec3.smul]
  nlinarith

/-- Witness for C7 (amended): on the concrete attached state with the
beetle at rest and unit inverse mass, the explicit detach clears the
references and raises the vertical velocity. -/
theorem c7_detach_applies_impulse_witness :
    (let s0 : PhysImpl.SysState :=
      { topSpeed := 4, attachedBall := some 1, constraint := some 0,
        worldConstraints := [0], nextId := 1,
        beetleBody :=
          { velocity := Poosher.Vec3.zero, force := Poosher.Vec3.zero,
            invMass := 1 },
        ballBody :=
          { velocity := Poosher.Vec3.zero, force := Poosher.Vec3.zero,
            invMass := 1 } };
      (PhysImpl.detachFromBall (1/2) (1/2) (1/2) s0).constraint = none ∧
      (PhysImpl.detachFromBall (1/2) (1/2) (1/2) s0).attachedBall = none ∧
      s0.beetleBody.velocity.y <
        (PhysImpl.detachFromBall (1/2) (1/2) (1/2) s0).beetleBody.velocity.y) := by
  have h := c7_detach_applies_impulse (1/2) (1/2) (1/2)
    { topSpeed := 4, attachedBall := some 1, constraint := some 0,
      worldConstraints := [0], nextId := 1,
      beetleBody :=
        { velocity := Poosher.Vec3.zero, force := Poosher.Vec3.zero,
          invMass := 1 },
      ballBody :=
        { velocity := Poosher.Vec3.zero, force := Poosher.Vec3.zero,
          invMass := 1 } }
    0 rfl
  exact ⟨h.1, h.2.1, h.2.2.2.2 (by norm_num) (by norm_num)⟩

/-- Claim C4 evaluated at the failing input (code bug): `updateBallSize`
on a ball whose body moves with linear velocity (1,0,0) and angular
velocity (0,2,0) replaces the body by a freshly created one whose linear
and angular velocities are zero — the saved velocity is never reapplied
(the transfer exists in the source only as a stub comment), so the
momentum-preservation claim fails on the recreate path. -/
theorem c4_resize_drops_velocity :
    (let e0 : PhysImpl.MdBallEntity :=
      { meshScale := 1,
        body :=
          { shapeRadius := 1/2, mass := 2, restitution := 0.4,
            friction := 0.8, velocity := ⟨1, 0, 0⟩,
            angularVelocity := ⟨0, 2, 0⟩ } };
      (PhysImpl.updateBallSize (fun s => s) 2 e0).body.velocity
        = Poosher.Vec3.zero ∧
      (PhysImpl.updateBallSize (fun s => s) 2 e0).body.angularVelocity
        = Poosher.Vec3.zero ∧
      (PhysImpl.updateBallSize (fun s => s) 2 e0).body.velocity
        ≠ e0.body.velocity ∧
      (PhysImpl.updateBallSize (fun s => s) 2 e0).body.angularVelocity
        ≠ e0.body.angularVelocity) := by
  refine ⟨rfl, rfl, ?_, ?_⟩ <;>
    norm_num [PhysImpl.updateBallSize, PhysImpl.createBallPhysics,
      Poosher.Vec3.zero]

namespace Part007

theorem massLaw_update (b : DungBall) (h : massLaw b) :
    massLaw (DungBall.update b) := by
  unfold DungBall.update
  by_cases hlt : b.currentRadius < b.maxRadius
  · rw [if_pos hlt]
    simp [massLaw]
  · rw [if_neg hlt]
    exact h

theorem massLaw_damage (a : ℚ) (b : DungBall) :
    massLaw (DungBall.damage a b) := by
  simp [DungBall.damage, massLaw]

theorem massLaw_applyBallOp (b : DungBall) (op : BallOp) (h : massLaw b) :
    massLaw (applyBallOp b op) := by
  cases op with
  | update => exact massLaw_update b h
  | damage a => exact massLaw_damage a b

theorem massLaw_applyBallOps (ops : List BallOp) (b : DungBall)
    (h : massLaw b) : massLaw (applyBallOps ops b) := by
  induction ops generalizing b with
  | nil => exact h
  | cons op rest ih =>
    simpa [applyBallOps] using ih (applyBallOp b op)
      (massLaw_applyBallOp b op h)

theorem massLaw_mkDungBall : massLaw mkDungBall := by
  norm_num [massLaw, mkDungBall]

theorem damage_radius (a : ℚ) (b : DungBall) :
    (DungBall.damage a b).radius = b.radius := rfl

theorem damage_floor (a : ℚ) (b : DungBall) (hrad : b.radius = 1/2) :
    1/2 ≤ (DungBall.damage a b).currentRadius := by
  simp only [DungBall.damage]
  rw [← hrad]
  exact le_max_left _ _

theorem applyDamages_floor (amts : List ℚ) (b : DungBall)
    (hrad : b.radius = 1/2) (hcur : 1/2 ≤ b.currentRadius) :
    1/2 ≤ (applyDamages amts b).currentRadius := by
  induction amts generalizing b with
  | nil => exact hcur
  | cons a rest ih =>
    simpa [applyDamages] using ih (DungBall.damage a b)
      (by rw [damage_radius, hrad]) (damage_floor a b hrad)

end Part007

/-- Claim C5: along every sequence of growth steps (the per-tick update)
and damage calls starting from the freshly constructed ball, the mass
equals `massScale × (currentRadius / radius)³` — the cubic, volumetric
law — and both operations re-establish it after changing the radius. -/
theorem c5_mass_volumetric_law (ops : List Part007.BallOp) :
    Part007.massLaw (Part007.applyBallOps ops Part007.mkDungBall) :=
  Part007.massLaw_applyBallOps ops Part007.mkDungBall
    Part007.massLaw_mkDungBall

/-- Claim C6: for every sequence of damage calls with positive amounts
starting from a ball with base radius MIN_RADIUS = 0.5 and current radius
at least 0.5, the current radius stays at least 0.5 after every call;
and a damage amount exceeding the current radius clamps the radius to
exactly 0.5, never below. -/
theorem c6_radius_floor (amts : List ℚ) (b : Part007.DungBall)
    (hrad : b.radius = 1/2) (hcur : 1/2 ≤ b.currentRadius)
    (hpos : ∀ a ∈ amts, 0 < a) :
    (∀ n : ℕ,
      1/2 ≤ (Part007.applyDamages (amts.take n) b).currentRadius) ∧
    (∀ a : ℚ, b.currentRadius < a →
      (Part007.DungBall.damage a b).currentRadius = 1/2) := by
  constructor
  · intro n
    exact Part007.applyDamages_floor (amts.take n) b hrad hcur
  · intro a hlt
    simp only [Part007.DungBall.damage]
    rw [hrad]
    rw [max_eq_left]
    linarith

/-- Witness for C6: damaging the fresh ball (radius 0.5) by 1 and then
by 0.3 keeps the radius at 0.5 at every step, and the single damage by 1,
which exceeds the current radius 0.5, clamps to exactly 0.5. -/
theorem c6_radius_floor_witness :
    (∀ n : ℕ,
      1/2 ≤ (Part007.applyDamages ([1, 0.3].take n)
        Part007.mkDungBall).currentRadius) ∧
    (Part007.DungBall.damage 1 Part007.mkDungBall).currentRadius = 1/2 := by
  have h := c6_radius_floor [1, 0.3] Part007.mkDungBall
    (by norm_num [Part007.mkDungBall])
    (by norm_num [Part007.mkDungBall])
    (by intro a ha; simp at ha; rcases ha with h1 | h1 <;> rw [h1] <;> norm_num)
  exact ⟨h.1, h.2 1 (by norm_num [Part007.mkDungBall])⟩

/-- Counterexample to claim C8: the per-tick `DungBall.update` is not
radius-preserving — on the freshly constructed ball (current radius 0.5,
below the max radius 3) one update raises the current radius by the
growth rate 0.005, to 0.505. -/
theorem c8_update_mutates_radius :
    (Part007.DungBall.update Part007.mkDungBall).currentRadius
      ≠ Part007.mkDungBall.currentRadius := by
  norm_num [Part007.DungBall.update, Part007.mkDungBall]

/-- Claim C8 as amended: the radius is written by `damage` and by the
per-tick `update`, which performs the gradual growth: while the current
radius is below `maxRadius`, `update` adds `growthRate` to it, and once
`maxRadius` is reached `update` leaves it unchanged; the friction
assignment and velocity writes never change the radius. -/
theorem c8_radius_writers (b : Part007.DungBall) :
    (b.maxRadius ≤ b.currentRadius →
      (Part007.DungBall.update b).currentRadius = b.currentRadius) ∧
    (b.currentRadius < b.maxRadius →
      (Part007.DungBall.update b).currentRadius
        = b.currentRadius + b.growthRate) ∧
    (∀ t : PhysImpl.Terrain,
      (PhysImpl.applyFriction t b).currentRadius = b.currentRadius) ∧
    (∀ v : Poosher.Vec3,
      (Part007.DungBall.setLinearVelocity v b).currentRadius
        = b.currentRadius) := by
  refine ⟨?_, ?_, ?_, ?_⟩
  · intro h
    simp [Part007.DungBall.update, not_lt.2 h]
  · intro h
    simp [Part007.DungBall.update, h]
  · intro t
    rfl
  · intro v
    rfl

/-- Witness for C8 (amended): one update on the fresh ball (radius 0.5,
below the max) adds the growth rate 0.005; one update on a ball already
at the max radius 3 leaves the radius at 3. -/
theorem c8_radius_writers_witness :
    (Part007.DungBall.update Part007.mkDungBall).currentRadius
      = Part007.mkDungBall.currentRadius
        + Part007.mkDungBall.growthRate ∧
    (Part007.DungBall.update
      { Part007.mkDungBall with currentRadius := 3 }).currentRadius
      = 3 := by
  constructor
  · exact (c8_radius_writers Part007.mkDungBall).2.1
      (by norm_num [Part007.mkDungBall])
  · exact (c8_radius_writers
      { Part007.mkDungBall with currentRadius := 3 }).1
      (by norm_num [Part007.mkDungBall])

/-- Counterexample to claim C9: the friction lookup does not give snow a
low coefficient — snow has no case in `updateFriction` and receives
exactly the default coefficient, and the default coefficient is lower
than the sand coefficient, contradicting the claimed ordering (snow low,
sand medium, default medium-high; the low coefficient 0.2 is keyed to
ice instead). -/
theorem c9_friction_counterexample :
    PhysImpl.updateFriction PhysImpl.Terrain.snow
      = PhysImpl.updateFriction PhysImpl.Terrain.defaultTag ∧
    PhysImpl.updateFriction PhysImpl.Terrain.defaultTag
      < PhysImpl.updateFriction PhysImpl.Terrain.sand := by
  constructor
  · rfl
  · norm_num [PhysImpl.updateFriction]

/-- Claim C9 as amended: `updateFriction` sets the friction from the
fixed lookup mud 1.5 (high), ice 0.2 (low), sand 1.2, and every other
surface — snow included, which has no entry — gets the default 0.8; for
shallow water the interaction multiplies the linear velocity by 0.8 once
per tick and invokes damage with the small fixed amount 0.05 and no
impact point; for deep water it invokes damage with the current radius,
leaving the ball at MIN_RADIUS 0.5. -/
theorem c9_terrain_effects (b : Part007.DungBall) :
    (PhysImpl.updateFriction PhysImpl.Terrain.mud = 1.5 ∧
     PhysImpl.updateFriction PhysImpl.Terrain.ice = 0.2 ∧
     PhysImpl.updateFriction PhysImpl.Terrain.sand = 1.2 ∧
     PhysImpl.updateFriction PhysImpl.Terrain.snow = 0.8 ∧
     PhysImpl.updateFriction PhysImpl.Terrain.defaultTag = 0.8) ∧
    (∀ t : PhysImpl.Terrain,
      (PhysImpl.applyFriction t b).friction = PhysImpl.updateFriction t) ∧
    ((PhysImpl.updateTerrainInteractions true
        PhysImpl.Terrain.water b).velocity
          = Poosher.Vec3.smul 0.8 b.velocity ∧
     (PhysImpl.updateTerrainInteractions true
        PhysImpl.Terrain.water b).currentRadius
          = max b.radius (b.currentRadius - 0.05)) ∧
    (b.radius = 1/2 →
      (PhysImpl.updateTerrainInteractions false
        PhysImpl.Terrain.water b).currentRadius = 1/2) := by
  refine ⟨⟨rfl, rfl, rfl, rfl, rfl⟩, fun t => rfl, ⟨?_, ?_⟩, ?_⟩
  · simp [PhysImpl.updateTerrainInteractions, Part007.DungBall.damage,
      Part007.DungBall.setLinearVelocity]
  · simp [PhysImpl.updateTerrainInteractions, Part007.DungBall.damage,
      Part007.DungBall.setLinearVelocity]
  · intro hrad
    simp [PhysImpl.updateTerrainInteractions, Part007.DungBall.damage,
      hrad]

/-- Witness for C9 (amended): on the fresh ball, shallow water scales
the velocity by 0.8 and shaves the radius by 0.05, and deep water leaves
the current radius at 0.5. -/
theorem c9_terrain_effects_witness :
    (PhysImpl.updateTerrainInteractions true PhysImpl.Terrain.water
        Part007.mkDungBall).velocity
      = Poosher.Vec3.smul 0.8 Part007.mkDungBall.velocity ∧
    (PhysImpl.updateTerrainInteractions false PhysImpl.Terrain.water
        Part007.mkDungBall).currentRadius = 1/2 := by
  have h := c9_terrain_effects Part007.mkDungBall
  exact ⟨h.2.2.1.1, h.2.2.2 (by norm_num [Part007.mkDungBall])⟩

/-- Claim C10: every public `PhysicsWorld` operation invoked before the
asynchronous initialization completes — update, addRigidBody and
removeRigidBody — returns with the state (native world bodies, tracked
body list, step counter) fully unchanged, and no exception path exists. -/
theorem c10_uninitialized_noop (s : Part000.PhysicsWorldState)
    (obj obj2 : Nat) (hinit : s.initialized = false) :
    Part000.PhysicsWorldState.update s = s ∧
    Part000.PhysicsWorldState.addRigidBody obj s = s ∧
    Part000.PhysicsWorldState.removeRigidBody obj2 s = s := by
  refine ⟨?_, ?_, ?_⟩
  · simp [Part000.PhysicsWorldState.update, hinit]
  · simp [Part000.PhysicsWorldState.addRigidBody, hinit]
  · simp [Part000.PhysicsWorldState.removeRigidBody, hinit]

/-- Witness for C10: on a concrete uninitialized world with one tracked
body, all three operations return the state unchanged. -/
theorem c10_uninitialized_noop_witness :
    (let s0 : Part000.PhysicsWorldState :=
      { initialized := false, rigidBodies := [7], worldBodies := [7],
        stepCount := 0 };
      Part000.PhysicsWorldState.update s0 = s0 ∧
      Part000.PhysicsWorldState.addRigidBody 3 s0 = s0 ∧
      Part000.PhysicsWorldState.removeRigidBody 7 s0 = s0) :=
  c10_uninitialized_noop
    { initialized := false, rigidBodies := [7], worldBodies := [7],
      stepCount := 0 } 3 7 rfl
